import Mathlib

/-!
Shallow embedding of the Revision Resolution & Batch Review Orchestration
core of `src/app.py` (a Flask drawing-checker application).

Python strings are modelled as Lean `String` / `List Char`; Python floats
(used only for the compliance score, which is always a multiple of 0.5)
are modelled as `ℚ`; Python exceptions from external collaborators are
modelled as `Except String`; an uncaught exception that aborts the whole
upload request is modelled as `Option.none`.
-/

namespace DrawingChecker

/-! ## Python string primitives -/

/-- ASCII lowering of one character, as `str.lower` acts on the ASCII
range (the filenames handled by the app are ASCII): `Char.toLower` maps
`A`–`Z` (code points 65–90) to the corresponding lower case letter and
leaves every other character unchanged. -/
def pyLowerChar (c : Char) : Char := c.toLower

/-- Whitespace characters removed by Python `str.strip()` (ASCII range). -/
def isPySpace (c : Char) : Bool :=
  c = ' ' || c = '\t' || c = '\n' || c = '\x0d' || c = Char.ofNat 11 || c = Char.ofNat 12

/-- Python `s.strip()`: drop leading and trailing whitespace. -/
def pyStrip (l : List Char) : List Char :=
  ((l.dropWhile isPySpace).reverse.dropWhile isPySpace).reverse

/-- Python `s.splitlines()` (for the terminators `\n`, `\r`, `\r\n`). -/
def splitlinesGo (acc : List Char) : List Char → List (List Char)
  | [] => if acc.isEmpty then [] else [acc.reverse]
  | '\x0d' :: '\n' :: rest => acc.reverse :: splitlinesGo [] rest
  | '\x0d' :: rest => acc.reverse :: splitlinesGo [] rest
  | '\n' :: rest => acc.reverse :: splitlinesGo [] rest
  | c :: rest => splitlinesGo (c :: acc) rest

def pySplitlines (l : List Char) : List (List Char) := splitlinesGo [] l

/-- Python `s.split(sep)` for a one-character separator (keeps empty
pieces, always returns at least one piece). -/
def splitOnChar (sep : Char) : List Char → List (List Char)
  | [] => [[]]
  | c :: rest =>
    if c = sep then [] :: splitOnChar sep rest
    else
      match splitOnChar sep rest with
      | [] => [[c]]
      | h :: t => (c :: h) :: t

/-- Python substring test `needle in hay`. -/
def containsTok (needle : List Char) : List Char → Bool
  | [] => needle.isPrefixOf []
  | c :: rest => needle.isPrefixOf (c :: rest) || containsTok needle rest

/-- Python lexicographic `<` on strings (code-point order). -/
def pyStrLt : List Char → List Char → Bool
  | _, [] => false
  | [], _ :: _ => true
  | a :: as, b :: bs =>
    if a < b then true else if b < a then false else pyStrLt as bs

/-- Python `a > b` on strings. -/
def pyStrGt (a b : List Char) : Bool := pyStrLt b a

/-! ## Identity parser

Embeds `re.match(r'(DR-[A-Z]+-\d+)-([CPD]\d+)\.', filename)` from
`get_latest_revisions` (src/app.py line 74).  The character classes
`[A-Z]+` and `\d+` are matched by maximal munch, which is equivalent to
the regex semantics here because the character following each class in
the pattern cannot belong to the class. -/

def isUpperAZ (c : Char) : Bool := decide ('A' ≤ c) && decide (c ≤ 'Z')

def isDigit09 (c : Char) : Bool := decide ('0' ≤ c) && decide (c ≤ '9')

/-- Greedy split: longest prefix whose characters satisfy `p`, and the rest. -/
def spanP (p : Char → Bool) : List Char → List Char × List Char
  | [] => ([], [])
  | c :: rest =>
    if p c then
      let (a, b) := spanP p rest
      (c :: a, b)
    else ([], c :: rest)

/-- Like `spanP` but fails when the matched prefix is empty (models `+`). -/
def span1 (p : Char → Bool) (l : List Char) : Option (List Char × List Char) :=
  match spanP p l with
  | ([], _) => none
  | (xs, rest) => some (xs, rest)

/-- Consume one expected literal character. -/
def expectChr (c : Char) : List Char → Option (List Char)
  | [] => none
  | x :: rest => if x = c then some rest else none

/-- `re.match(r'(DR-[A-Z]+-\d+)-([CPD]\d+)\.', filename)`: on success
returns (group 1, group 2) = (drawing identity, revision token). -/
def matchIdRev (f : String) : Option (String × String) :=
  match expectChr 'D' f.data with
  | none => none
  | some r1 =>
  match expectChr 'R' r1 with
  | none => none
  | some r2 =>
  match expectChr '-' r2 with
  | none => none
  | some r3 =>
  match span1 isUpperAZ r3 with
  | none => none
  | some (letters, r4) =>
  match expectChr '-' r4 with
  | none => none
  | some r5 =>
  match span1 isDigit09 r5 with
  | none => none
  | some (digs, r6) =>
  match expectChr '-' r6 with
  | none => none
  | some r7 =>
  match r7 with
  | [] => none
  | c :: r8 =>
    if c = 'C' || c = 'P' || c = 'D' then
      match span1 isDigit09 r8 with
      | none => none
      | some (digs2, r9) =>
      match expectChr '.' r9 with
      | none => none
      | some _ =>
        some (String.mk ('D' :: 'R' :: '-' :: (letters ++ '-' :: digs)),
              String.mk (c :: digs2))
    else none

/-- The grouping key a filename receives: the matched identity, or the raw
filename as fallback (`number = match.group(1) if match else filename`). -/
def keyOf (f : String) : String :=
  match matchIdRev f with
  | some p => p.1
  | none => f

/-- `filename.lower().endswith(('.pdf', '.dwg', '.dxf'))` (src/app.py line 72). -/
def recognizedExt (f : String) : Bool :=
  let lf := f.data.map pyLowerChar
  ".pdf".data.isSuffixOf lf || ".dwg".data.isSuffixOf lf || ".dxf".data.isSuffixOf lf

/-! ## Insertion-ordered dictionary

Python `dict` restricted to the operations the source uses: `get`,
item assignment (update in place, insert at the end) and
`setdefault(k, []).append(x)`.  Keys are kept unique and in insertion
order, exactly as Python dictionaries behave. -/

/-- `d.get(k)` (first — and by construction only — binding of `k`). -/
def dictGet {α : Type} : List (String × α) → String → Option α
  | [], _ => none
  | e :: rest, k => if e.1 == k then some e.2 else dictGet rest k

/-- `d[k] = v`: replace the binding in place, else append at the end. -/
def dictSet {α : Type} : List (String × α) → String → α → List (String × α)
  | [], k, v => [(k, v)]
  | e :: rest, k, v =>
    if e.1 == k then (k, v) :: rest else e :: dictSet rest k v

/-- `d.setdefault(k, []).append(x)`. -/
def dictAppend : List (String × List String) → String → String → List (String × List String)
  | [], k, x => [(k, [x])]
  | e :: rest, k, x =>
    if e.1 == k then (e.1, e.2 ++ [x]) :: rest else e :: dictAppend rest k x

/-! ## Revision resolver / batch selector

`get_latest_revisions` (src/app.py lines 69–84).  The `os.path.join`
with the session folder, undone immediately by `os.path.basename` in the
caller, is dropped: files are identified by their filename. -/

/-- One iteration of the `for filename in os.listdir(folder)` loop body. -/
def revStep (d : List (String × String × String)) (filename : String) :
    List (String × String × String) :=
  if !recognizedExt filename then d
  else
    match matchIdRev filename with
    | some (base, rev) =>
      match dictGet d base with
      | some current =>
        -- `if not current or rev[1:] > current[1][1:]` — a *lexical*
        -- string comparison of the digit suffixes.
        if pyStrGt (rev.data.drop 1) (current.2.data.drop 1) then
          dictSet d base (filename, rev)
        else d
      | none => dictSet d base (filename, rev)
    | none =>
      -- Include non-matching files using filename as fallback
      dictSet d filename (filename, "NA")

/-- The `drawings` dictionary after the whole loop. -/
def revDict (files : List String) : List (String × String × String) :=
  files.foldl revStep []

/-- `get_latest_revisions`: the selected filenames, one per identity,
in identity insertion order (`drawings.values()`). -/
def get_latest_revisions (files : List String) : List String :=
  (revDict files).map (fun e => e.2.1)

/-- The `drawing_index` built in `upload` (src/app.py lines 242–247) by
re-matching each selected filename and appending it under its key. -/
def idxStep (d : List (String × List String)) (filename : String) :
    List (String × List String) :=
  dictAppend d (keyOf filename) filename

def drawingIndex (selected : List String) : List (String × List String) :=
  selected.foldl idxStep []

/-- Union of the filename lists over all index entries (specification-side
helper used to state the traceability claims). -/
def indexUnion : List (String × List String) → List String
  | [] => []
  | e :: rest => e.2 ++ indexUnion rest

/-! ## Scoring (`score_compliance`, src/app.py lines 182–191) -/

/-- The marker token `"Result:"`. -/
def resultTok : List Char := "Result:".data

/-- The pass symbol ✅ (U+2705). -/
def checkTok : List Char := [Char.ofNat 0x2705]

/-- The caution symbol ⚠️ (U+26A0 followed by U+FE0F, exactly as the two
code points appear in the Python source literal). -/
def warnTok : List Char := [Char.ofNat 0x26A0, Char.ofNat 0xFE0F]

/-- The fail symbol ❌ (U+274C). -/
def crossTok : List Char := [Char.ofNat 0x274C]

/-- `line.strip().startswith("Result:")`. -/
def isResLine (l : List Char) : Bool := resultTok.isPrefixOf (pyStrip l)

/-- `'✅' in line`. -/
def hasCheck (l : List Char) : Bool := containsTok checkTok l

/-- `'⚠️' in line`. -/
def hasWarn (l : List Char) : Bool := containsTok warnTok l

/-- `'❌' in line`. -/
def hasCross (l : List Char) : Bool := containsTok crossTok l

/-- Contribution of one line to `total`:
`if '✅' in line: total += 1 elif '⚠️' in line: total += 0.5`,
guarded by `if line.strip().startswith("Result:")`. -/
def lineVal (l : List Char) : ℚ :=
  if isResLine l then
    if hasCheck l then 1
    else if hasWarn l then 1 / 2
    else 0
  else 0

/-- The accumulated `total` over `report_text.splitlines()`. -/
def scoreTotal (report_text : String) : ℚ :=
  (pySplitlines report_text.data).foldl (fun t l => t + lineVal l) 0

/-- The risk classification at the end of `score_compliance`. -/
def riskOf (total : ℚ) : String :=
  if total ≥ 27 then "Low"
  else if total ≥ 20 then "Medium"
  else "High"

/-- `score_compliance(report_text)` returns `(total, risk)`. -/
def score_compliance (report_text : String) : ℚ × String :=
  let total := scoreTotal report_text
  (total, riskOf total)

/-! ## Prompt construction (`generate_prompt`, src/app.py lines 89–171) -/

/-- Python `s[:n]`. -/
def pyTake (n : Nat) (s : String) : String := String.mk (s.data.take n)

/-- The fixed 30-point QA checklist literal embedded in the prompt. -/
def qa_checks : String :=
"
1. ✅ Are all cover/invert levels shown, consistent, and buildable?
2. ✅ Are pipe bedding types correct per CESWI/UUCESWI?
3. ✅ Is flow direction clearly shown?
4. ✅ Do chamber references and layouts match schedules?
5. ✅ Are wall, slab, and foundation thicknesses shown and labelled?
6. ✅ Is reinforcement correctly detailed?
7. ✅ Are pipe sizes, gradients, and materials labelled?
8. ✅ Are access ladders, platforms, or landings included where needed?
9. ✅ Are chambers and covers accessible for lifting and maintenance?
10. ✅ Are plans, sections, and detail views coordinated?
11. ✅ Are cable tray routes clash-free with civils?
12. ✅ Are ducts shown with correct layout, spacing, and annotation?
13. ✅ Are drawpits and duct bends buildable and spaced to spec?
14. ✅ Are pumps and valves fully detailed and accessible?
15. ✅ Are mechanical/electrical isolations clearly marked?
16. ✅ Are sensors and instruments located correctly?
17. ✅ Are control panels coordinated with structure?
18. ✅ Are civils penetrations shown for M&E systems?
19. ✅ Are vent routes logical and clash-free?
20. ✅ Are bonding and earthing points compliant?
21. ✅ Does this drawing comply with CESWI/UUCESWI?
22. ✅ Are United Utilities (UU) standard details applied correctly?
23. ✅ Is this the current approved-for-construction revision?
24. ✅ Are referenced drawings accurate and consistent?
25. ✅ Are temporary works or staged build notes included where required?
26. ✅ Are maintenance/lifting zones and fall protection shown?
27. ✅ Is the scope clear in the title block and general notes?
28. ✅ Is the drawing coordinated with current RAMS and construction methods?
29. ✅ Are services and structures shown logically and buildable?
30. ✅ Are there any omissions identified using your internal engineering knowledge?
"

/-- `generate_prompt(drawing_number, title, revision, text, reference_texts,
ref_drawings)`: assembles the review prompt.  The reference corpora are the
two module-level dictionaries, modelled as association lists. -/
def generate_prompt (drawing_number title revision text : String)
    (reference_texts ref_drawings : List (String × String)) : String :=
  let spec_context := String.intercalate "\n"
    (reference_texts.map (fun nd => nd.1 ++ ":\n" ++ pyTake 1000 nd.2))
  let zip_context := String.intercalate "\n"
    (ref_drawings.map (fun nt => nt.1 ++ ":\n" ++ pyTake 1000 nt.2))
  "
You are a construction drawing checker built for C2V+ projects working on United Utilities infrastructure sites.

A ZIP file of reference drawings has been uploaded. You must fully read and cross-reference all files, then assess the uploaded drawing.

Use CESWI 7th Edition, UUCESWI amendments, and C2V+ \"What Good Looks Like\" standards.

### Drawing Details:
- Drawing Number: " ++ drawing_number ++ "
- Title: " ++ title ++ "
- Revision: " ++ revision ++ "

--- Drawing Content ---
" ++ text ++ "

--- Reference Documents ---
" ++ spec_context ++ "

--- Master Drawings ---
" ++ zip_context ++ "

### Instructions:
1. Identify the drawing type (e.g., Drainage Layout, Cable Routing, Valve Chamber)
2. Apply all relevant checks from the following 30-point QA list:
" ++ qa_checks ++ "

3. Output results in this format:

---
Result: ✅ / ⚠️ / ❌
Explanation (technical, specific)
Drawing Reference
Suggested Action
---

Repeat for each check.

Score the drawing out of 30.
Then give:
- Risk Level: Low / Medium / High
- Additional Observations
- Clashes or omissions across documents
- Notes for further clarification (e.g. request plan/section views)

Only refer to visible content — never assume.
"

/-! ## Per-file review pipeline and session loop
(`upload`, src/app.py lines 255–294)

External collaborators (PDF/DXF text extraction, the reasoning service,
docx report writing, PDF annotation) are modelled as oracle functions
whose failures (`Except.error`) stand for raised Python exceptions with
the given message (`str(e)`).  An exception raised *outside* the
`try`/`except` block aborts the whole request; this is modelled by
`Option.none` at the loop level. -/

structure Collab where
  read_pdf_text : String → Except String String
  read_dxf_text : String → Except String String
  call_gpt : String → Except String String
  generate_docx_report : String → String → ℚ → String → Except String String
  annotate_pdf : String → List String → Except String String

/-- One element of the `report_links` list. -/
inductive ReportEntry where
  | ok (docx : String) (pdf_overlay : Option String)
  | err (msg : String)
deriving DecidableEq, Repr

/-- One row of `summary_table`: `{"drawing": _, "score": _, "risk": _}`. -/
def SummaryRow : Type := String × ℚ × String

instance : DecidableEq SummaryRow := by
  unfold SummaryRow
  infer_instance

/-- Case-sensitive `filename.endswith(suf)` as used inside the loop. -/
def endsCS (f suf : String) : Bool := suf.data.isSuffixOf f.data

/-- `filename.split('-')[2] if '-' in filename else filename` — the list
index can be out of range, raising an uncaught `IndexError` (`none`). -/
def deriveDrawingNumber (filename : String) : Option String :=
  if filename.data.contains '-' then
    ((splitOnChar '-' filename.data).get? 2).map String.mk
  else some filename

/-- `filename.rsplit('.', 1)[0]`. -/
def titleOf (filename : String) : String :=
  if filename.data.contains '.' then
    String.mk (((filename.data.reverse.dropWhile (fun c => !(c = '.'))).drop 1).reverse)
  else filename

/-- `filename.split('-')[-1].split('.')[0]`. -/
def revisionOf (filename : String) : String :=
  String.mk (((splitOnChar '-' filename.data).getLastD []).takeWhile (fun c => !(c = '.')))

/-- The error entry text `f"Failed to process {filename}: {e}"`. -/
def failMsg (filename e : String) : String :=
  "Failed to process " ++ filename ++ ": " ++ e

/-- The `try` block body once the drawing text has been extracted:
prompt → reasoning service → scoring → report → (for PDFs) annotation.
Returns this file's `report_links` entries and its optional summary row. -/
def afterExtract (c : Collab) (specs refs : List (String × String))
    (filename drawing_number title revision text : String) :
    List ReportEntry × Option SummaryRow :=
  let prompt := generate_prompt drawing_number title revision text specs refs
  match c.call_gpt prompt with
  | .error e => ([.err (failMsg filename e)], none)
  | .ok gpt_result =>
    let sr := score_compliance gpt_result
    match c.generate_docx_report filename gpt_result sr.1 sr.2 with
    | .error e => ([.err (failMsg filename e)], none)
    | .ok docx_path =>
      if endsCS filename ".pdf" then
        let flagged_notes := ((pySplitlines gpt_result.data).filter
          (fun l => hasCross l || hasWarn l)).map String.mk
        match c.annotate_pdf filename flagged_notes with
        | .error e => ([.ok docx_path none, .err (failMsg filename e)], none)
        | .ok overlay_path =>
          ([.ok docx_path (some overlay_path)], some (filename, sr.1, sr.2))
      else ([.ok docx_path none], some (filename, sr.1, sr.2))

/-- One iteration of `for path in all_drawings` in `upload`.  `none` models
an uncaught exception (the `drawing_number` IndexError) aborting the
request; inside the `try` block every failure is caught and becomes an
error entry. -/
def uploadStep (c : Collab) (specs refs : List (String × String))
    (filename : String) : Option (List ReportEntry × Option SummaryRow) :=
  match deriveDrawingNumber filename with
  | none => none
  | some drawing_number =>
    let title := titleOf filename
    let revision := revisionOf filename
    some (
      if endsCS filename ".pdf" then
        match c.read_pdf_text filename with
        | .error e => ([.err (failMsg filename e)], none)
        | .ok text => afterExtract c specs refs filename drawing_number title revision text
      else if endsCS filename ".dwg" || endsCS filename ".dxf" then
        match c.read_dxf_text filename with
        | .error e => ([.err (failMsg filename e)], none)
        | .ok text => afterExtract c specs refs filename drawing_number title revision text
      else ([], none))  -- `continue`

/-- The whole loop over `all_drawings`, accumulating `report_links` and
`summary_table` in input order; `none` when some iteration raised an
uncaught exception (the response is then never produced). -/
def uploadLoop (c : Collab) (specs refs : List (String × String)) :
    List String → Option (List ReportEntry × List SummaryRow)
  | [] => some ([], [])
  | f :: rest =>
    match uploadStep c specs refs f with
    | none => none
    | some (es, srow) =>
      match uploadLoop c specs refs rest with
      | none => none
      | some (es', rows) => some (es ++ es', srow.toList ++ rows)

/-! ## Specification-side helpers (not part of the program) -/

/-- Numeric value of a digit string. -/
def digitsVal (l : List Char) : Nat :=
  l.foldl (fun a c => 10 * a + (c.toNat - '0'.toNat)) 0

/-- The numeric suffix of a revision token: the digits after the leading
classifier letter, read as a number (the ordering §4.2 of the spec
mandates). -/
def numSuffix (rev : String) : Nat := digitsVal (rev.data.drop 1)

/-- Concrete reasoning-service output used by the pipeline scenarios: a
single pass-marked result line, so its score is `1` and risk `"High"`. -/
def gptDemo : String := String.mk ("Result: ".data ++ checkTok)

/-- Oracle set in which every collaborator succeeds except docx report
generation, which raises `"disk full"`. -/
def collabReportFail : Collab where
  read_pdf_text := fun _ => .ok "TXT"
  read_dxf_text := fun _ => .error "no dxf reader"
  call_gpt := fun _ => .ok gptDemo
  generate_docx_report := fun _ _ _ _ => .error "disk full"
  annotate_pdf := fun _ _ => .ok "overlay.pdf"

/-! ## Shared lemmas about the scoring fold -/

theorem foldl_add_lineVal (ls : List (List Char)) (a : ℚ) :
    ls.foldl (fun t l => t + lineVal l) a = a + (ls.map lineVal).sum := by
  induction ls generalizing a with
  | nil => simp
  | cons h t ih => simp [ih, add_assoc]

theorem scoreTotal_eq_sum (s : String) :
    scoreTotal s = ((pySplitlines s.data).map lineVal).sum := by
  simpa [scoreTotal] using foldl_add_lineVal (pySplitlines s.data) 0

/-- Number of `Result:` lines containing the pass symbol (these score 1). -/
def countCheckLines (s : String) : Nat :=
  ((pySplitlines s.data).filter (fun l => isResLine l && hasCheck l)).length

/-- Number of `Result:` lines containing the caution symbol but not the
pass symbol (these score 0.5, by the `elif`). -/
def countWarnLines (s : String) : Nat :=
  ((pySplitlines s.data).filter
    (fun l => isResLine l && !hasCheck l && hasWarn l)).length

theorem sum_lineVal_eq_counts (L : List (List Char)) :
    (L.map lineVal).sum
      = ((L.filter (fun l => isResLine l && hasCheck l)).length : ℚ)
        + ((L.filter (fun l => isResLine l && !hasCheck l && hasWarn l)).length : ℚ) / 2 := by
  induction L with
  | nil => simp
  | cons h t ih =>
    rcases hr : isResLine h with _ | _ <;> rcases hc : hasCheck h with _ | _ <;>
      rcases hw : hasWarn h with _ | _ <;>
        · simp only [List.map_cons, List.sum_cons, List.filter_cons, hr, hc, hw,
            lineVal, Bool.and_self, Bool.and_true, Bool.and_false, Bool.true_and,
            Bool.false_and, Bool.not_true, Bool.not_false, if_true, if_false,
            Bool.false_eq_true, ite_false, ite_true, List.length_cons, ih]
          push_cast
          ring

/-- `total` is the number of pass lines plus half the number of
caution-only lines: the bridge between the ℚ-valued fold and the
decidable line counters. -/
theorem scoreTotal_eq_counts (s : String) :
    scoreTotal s = (countCheckLines s : ℚ) + (countWarnLines s : ℚ) / 2 := by
  rw [scoreTotal_eq_sum, countCheckLines, countWarnLines]
  exact sum_lineVal_eq_counts _

/-! ## Claim theorems -/

/-- C1.  The spec says the resolver compares revision tokens by numeric
suffix and must select `DR-AB-100-P10.pdf` in the scenario group.  The
code compares the suffix substrings *lexically* (`rev[1:] > current[1][1:]`
on Python `str`), so `"10" < "2"` and it selects `DR-AB-100-C2.pdf`
instead, even though the numeric suffix of `C2` is smaller than that of
`P10`.  This theorem evaluates the embedded code at the failing input. -/
theorem C1_lexical_comparison_picks_C2 :
    get_latest_revisions
        ["DR-AB-100-C1.pdf", "DR-AB-100-C2.pdf", "DR-AB-100-P10.pdf"]
      = ["DR-AB-100-C2.pdf"] ∧
    numSuffix "C2" < numSuffix "P10" := by decide

/-- C9.  The spec says a later candidate whose numeric suffix equals the
current best's never replaces it (first seen wins), naming `C05` vs `C5`.
The code's lexical comparison has `"5" > "05"`, so `DR-AB-100-C5.pdf`
*does* replace `DR-AB-100-C05.pdf` although both numeric suffixes are 5.
This theorem evaluates the embedded code at the failing input. -/
theorem C9_equal_numeric_suffix_is_replaced :
    get_latest_revisions ["DR-AB-100-C05.pdf", "DR-AB-100-C5.pdf"]
      = ["DR-AB-100-C5.pdf"] ∧
    numSuffix "C05" = numSuffix "C5" := by decide

/-- C6.  The claim says a raised exception while processing one WorkItem
never aborts the session.  But `drawing_number = filename.split('-')[2]`
is evaluated *outside* the `try` block: for the fallback-included file
`AB-1.pdf` (recognized extension, unparseable name, one dash) the index
`[2]` raises an uncaught IndexError, aborting the whole session — no
error entry is recorded and the healthy second file is never processed,
whatever the collaborators do. -/
theorem C6_index_error_aborts_session :
    ∀ (c : Collab) (specs refs : List (String × String)),
      uploadLoop c specs refs
        (get_latest_revisions ["AB-1.pdf", "DR-AB-100-C1.pdf"]) = none := by
  intro c specs refs
  rfl

/-- C2 counterexample.  With two revisions of one identity in the input,
the index is built from the *selected* files only, so the superseded
original `DR-AB-100-C1.pdf` (a recognized-extension input file) is absent
from the union of the index's filename lists — the union is not the input
set minus unrecognized extensions. -/
theorem C2_counterexample_index_drops_superseded :
    drawingIndex (get_latest_revisions ["DR-AB-100-C1.pdf", "DR-AB-100-C2.pdf"])
      = [("DR-AB-100", ["DR-AB-100-C2.pdf"])] ∧
    recognizedExt "DR-AB-100-C1.pdf" = true ∧
    "DR-AB-100-C1.pdf" ∉
      indexUnion (drawingIndex
        (get_latest_revisions ["DR-AB-100-C1.pdf", "DR-AB-100-C2.pdf"])) := by
  decide

/-- C5 counterexample.  When docx generation fails after the score was
computed, the file yields only an error entry and the summary table is
empty: the computed `(filename, score, risk)` row does *not* appear,
although `score_compliance` had successfully produced `(1, "High")` for
the assessment text. -/
theorem C5_counterexample_failed_report_drops_summary_row :
    uploadLoop collabReportFail [] [] ["DR-AB-100-C1.pdf"]
      = some ([.err (failMsg "DR-AB-100-C1.pdf" "disk full")], []) ∧
    score_compliance gptDemo = (1, "High") := by
  constructor
  · decide
  · have h : scoreTotal gptDemo = 1 := by
      rw [scoreTotal_eq_counts,
        show countCheckLines gptDemo = 1 from by decide,
        show countWarnLines gptDemo = 0 from by decide]
      norm_num
    have hr : riskOf 1 = "High" := by norm_num [riskOf]
    simp [score_compliance, h, hr]

/-- C8 counterexample.  `score_compliance` does not cap the score at the
checklist size: an assessment text with 31 pass-marked result lines
scores 31 > 30. -/
theorem C8_counterexample_score_exceeds_30 :
    scoreTotal (String.intercalate "\n"
        (List.replicate 31 (String.mk ("Result: ".data ++ checkTok)))) = 31 ∧
    ¬(scoreTotal (String.intercalate "\n"
        (List.replicate 31 (String.mk ("Result: ".data ++ checkTok)))) ≤ 30) := by
  have h : scoreTotal (String.intercalate "\n"
      (List.replicate 31 (String.mk ("Result: ".data ++ checkTok)))) = 31 := by
    rw [scoreTotal_eq_counts,
      show countCheckLines (String.intercalate "\n"
        (List.replicate 31 (String.mk ("Result: ".data ++ checkTok)))) = 31 from by decide,
      show countWarnLines (String.intercalate "\n"
        (List.replicate 31 (String.mk ("Result: ".data ++ checkTok)))) = 0 from by decide]
    norm_num
  exact ⟨h, by rw [h]; norm_num⟩

/-- C4.  The risk tier is a pure deterministic function of the numeric
score with the exact thresholds: `s ≥ 27 → Low`, `20 ≤ s < 27 → Medium`,
`s < 20 → High`; in particular `27 → Low`, `26.5 → Medium`,
`20 → Medium`, `19.5 → High`. -/
theorem C4_risk_tier_thresholds :
    (∀ report_text : String,
      (score_compliance report_text).2 = riskOf (score_compliance report_text).1) ∧
    (∀ s : ℚ, 27 ≤ s → riskOf s = "Low") ∧
    (∀ s : ℚ, 20 ≤ s → s < 27 → riskOf s = "Medium") ∧
    (∀ s : ℚ, s < 20 → riskOf s = "High") ∧
    riskOf 27 = "Low" ∧ riskOf (53 / 2) = "Medium" ∧
    riskOf 20 = "Medium" ∧ riskOf (39 / 2) = "High" := by
  refine ⟨fun _ => rfl, ?_, ?_, ?_, by norm_num [riskOf], by norm_num [riskOf],
    by norm_num [riskOf], by norm_num [riskOf]⟩
  · intro s h
    unfold riskOf
    rw [if_pos h]
  · intro s h h'
    unfold riskOf
    rw [if_neg (not_le.mpr h'), if_pos h]
  · intro s h
    unfold riskOf
    rw [if_neg (not_le.mpr (by linarith)), if_neg (not_le.mpr h)]

/-- Witness for C4 at concrete scores away from the boundaries. -/
theorem C4_risk_tier_thresholds_witness :
    riskOf 30 = "Low" ∧ riskOf 25 = "Medium" ∧ riskOf 10 = "High" :=
  ⟨C4_risk_tier_thresholds.2.1 30 (by norm_num),
   C4_risk_tier_thresholds.2.2.1 25 (by norm_num) (by norm_num),
   C4_risk_tier_thresholds.2.2.2.1 10 (by norm_num)⟩

/-- C10.  A `Result:`-marked line containing both the pass symbol and the
caution symbol contributes exactly 1.0 (the `elif` makes the pass symbol
take precedence), and the total score is the sum of the per-line
contributions. -/
theorem C10_pass_symbol_precedence :
    (∀ l : List Char, isResLine l = true → hasCheck l = true →
      hasWarn l = true → lineVal l = 1) ∧
    (∀ report_text : String,
      scoreTotal report_text = ((pySplitlines report_text.data).map lineVal).sum) := by
  refine ⟨?_, scoreTotal_eq_sum⟩
  intro l h1 h2 _
  simp [lineVal, h1, h2]

/-- Witness for C10: a concrete line holding both symbols scores 1. -/
theorem C10_pass_symbol_precedence_witness :
    lineVal ("Result: ".data ++ checkTok ++ warnTok) = 1 :=
  C10_pass_symbol_precedence.1 ("Result: ".data ++ checkTok ++ warnTok)
    (by decide) (by decide) (by decide)

/-- C3.  For an assessment text whose `Result:` lines are exactly `k`
lines containing the pass symbol and `m` lines containing the caution
symbol (no line containing both, no other `Result:` lines), the score is
`k + 0.5·m`; lines not beginning with the marker token contribute 0. -/
theorem C3_score_counts_pass_and_caution (report_text : String) (k m : ℕ)
    (hk : ((pySplitlines report_text.data).filter
      (fun l => isResLine l && hasCheck l)).length = k)
    (hm : ((pySplitlines report_text.data).filter
      (fun l => isResLine l && hasWarn l)).length = m)
    (hdisj : ∀ l ∈ pySplitlines report_text.data,
      isResLine l = true → ¬(hasCheck l = true ∧ hasWarn l = true))
    (_hall : ∀ l ∈ pySplitlines report_text.data,
      isResLine l = true → hasCheck l = true ∨ hasWarn l = true) :
    scoreTotal report_text = k + (m : ℚ) / 2 := by
  have hwarn : countWarnLines report_text = m := by
    rw [countWarnLines, ← hm]
    congr 1
    apply List.filter_congr
    intro l hl
    rcases hr : isResLine l with _ | _ <;> rcases hc : hasCheck l with _ | _ <;>
      rcases hw : hasWarn l with _ | _ <;> simp_all
  have hcheck : countCheckLines report_text = k := hk
  rw [scoreTotal_eq_counts, hcheck, hwarn]

/-- Sample text for the C3 witness: one pass line, two caution lines,
one unmarked line. -/
def c3SampleText : String :=
  String.mk (("Result: ".data ++ checkTok) ++ '\n' ::
    (("Result: ".data ++ warnTok) ++ '\n' ::
      (("  Result: ".data ++ warnTok) ++ '\n' :: "no marker here".data)))

/-- Witness for C3 at `k = 1`, `m = 2`. -/
theorem C3_score_counts_pass_and_caution_witness :
    scoreTotal c3SampleText = 1 + (2 : ℚ) / 2 :=
  C3_score_counts_pass_and_caution c3SampleText 1 2
    (by decide) (by decide) (by decide) (by decide)

/-- The pass-counting and caution-counting line filters select disjoint
sublists of the `Result:` lines. -/
theorem counts_le_resCount (L : List (List Char)) :
    (L.filter (fun l => isResLine l && hasCheck l)).length
      + (L.filter (fun l => isResLine l && !hasCheck l && hasWarn l)).length
      ≤ (L.filter (fun l => isResLine l)).length := by
  induction L with
  | nil => simp
  | cons h t ih =>
    rcases hr : isResLine h with _ | _ <;> rcases hc : hasCheck h with _ | _ <;>
      rcases hw : hasWarn h with _ | _ <;>
        · simp only [List.filter_cons, hr, hc, hw, Bool.and_self, Bool.and_true,
            Bool.and_false, Bool.true_and, Bool.false_and, Bool.not_true,
            Bool.not_false, Bool.false_eq_true, if_true, if_false, ite_true,
            ite_false, List.length_cons]
          omega

/-- C8, amended.  The score is nonnegative, a multiple of 0.5, and at
most the number of `Result:`-marked lines; hence it stays ≤ 30 whenever
the text has at most 30 such marker lines (the code enforces no cap for
texts with more). -/
theorem C8_amended_score_bounds (report_text : String) :
    0 ≤ scoreTotal report_text ∧
    (∃ n : ℕ, scoreTotal report_text = (n : ℚ) / 2) ∧
    scoreTotal report_text
      ≤ (((pySplitlines report_text.data).filter (fun l => isResLine l)).length : ℚ) ∧
    (((pySplitlines report_text.data).filter (fun l => isResLine l)).length ≤ 30 →
      scoreTotal report_text ≤ 30) := by
  have h := scoreTotal_eq_counts report_text
  have hle := counts_le_resCount (pySplitlines report_text.data)
  have hle' : (countCheckLines report_text : ℚ) + (countWarnLines report_text : ℚ)
      ≤ (((pySplitlines report_text.data).filter (fun l => isResLine l)).length : ℚ) := by
    exact_mod_cast hle
  have hbound : scoreTotal report_text
      ≤ (((pySplitlines report_text.data).filter (fun l => isResLine l)).length : ℚ) := by
    rw [h]
    have : (0 : ℚ) ≤ (countWarnLines report_text : ℚ) := by positivity
    linarith
  refine ⟨by rw [h]; positivity,
    ⟨2 * countCheckLines report_text + countWarnLines report_text, by rw [h]; push_cast; ring⟩,
    hbound, fun h30 => ?_⟩
  have : (((pySplitlines report_text.data).filter
      (fun l => isResLine l)).length : ℚ) ≤ 30 := by exact_mod_cast h30
  linarith

/-- Witness for C8 as amended, at a one-line assessment text. -/
theorem C8_amended_score_bounds_witness :
    0 ≤ scoreTotal gptDemo ∧ scoreTotal gptDemo ≤ 30 :=
  ⟨(C8_amended_score_bounds gptDemo).1,
   (C8_amended_score_bounds gptDemo).2.2.2 (by decide)⟩

/-! ## Lemmas for the identity index (C2) -/

theorem mem_indexUnion_dictAppend (d : List (String × List String)) (k x f : String) :
    f ∈ indexUnion (dictAppend d k x) ↔ f ∈ indexUnion d ∨ f = x := by
  induction d with
  | nil => simp [dictAppend, indexUnion]
  | cons e rest ih =>
    rcases h : (e.1 == k) with _ | _
    · simp only [dictAppend, h, Bool.false_eq_true, if_false, indexUnion,
        List.mem_append, ih]
      tauto
    · simp only [dictAppend, h, if_true, indexUnion, List.mem_append,
        List.mem_singleton]
      tauto

theorem mem_indexUnion_foldl (fs : List String) (acc : List (String × List String))
    (f : String) :
    f ∈ indexUnion (fs.foldl idxStep acc) ↔ f ∈ indexUnion acc ∨ f ∈ fs := by
  induction fs generalizing acc with
  | nil => simp
  | cons g rest ih =>
    rw [List.foldl_cons, ih, idxStep, mem_indexUnion_dictAppend]
    simp [or_assoc]

/-- C2, amended.  The identity index is built from the *selected* files
only: the union of filenames over all index entries equals the set of
selected (work-list) filenames, not the whole input file set minus
unrecognized extensions. -/
theorem C2_amended_index_union_is_selected (files : List String) (f : String) :
    f ∈ indexUnion (drawingIndex (get_latest_revisions files)) ↔
      f ∈ get_latest_revisions files := by
  rw [drawingIndex, mem_indexUnion_foldl]
  simp [indexUnion]

/-- C5, amended.  When docx report generation raises after the score was
computed, the `except` handler turns the failure into a per-file error
entry naming the file and the cause, and the file contributes *no*
summary row (so the computed `(filename, score, risk)` does not appear in
the summary; the failure does not abort the loop or disturb other
files, whose entries are accumulated independently by `uploadLoop`). -/
theorem C5_amended_report_failure_error_entry_no_summary_row
    (c : Collab) (specs refs : List (String × String)) (f dn text gpt e : String)
    (hnum : deriveDrawingNumber f = some dn)
    (hpdf : endsCS f ".pdf" = true)
    (hread : c.read_pdf_text f = .ok text)
    (hgpt : c.call_gpt (generate_prompt dn (titleOf f) (revisionOf f) text specs refs)
      = .ok gpt)
    (hdocx : c.generate_docx_report f gpt (score_compliance gpt).1
      (score_compliance gpt).2 = .error e) :
    uploadStep c specs refs f = some ([.err (failMsg f e)], none) := by
  simp only [uploadStep, hnum, hpdf, hread, afterExtract, hgpt, if_true]
  rw [hdocx]

/-- Witness for C5 as amended, with a concrete failing docx writer. -/
theorem C5_amended_report_failure_witness :
    uploadStep collabReportFail [] [] "DR-AB-100-C1.pdf"
      = some ([.err (failMsg "DR-AB-100-C1.pdf" "disk full")], none) :=
  C5_amended_report_failure_error_entry_no_summary_row collabReportFail [] []
    "DR-AB-100-C1.pdf" "100" "TXT" gptDemo "disk full"
    (by decide) (by decide) rfl rfl rfl

/-! ## Lemmas about the insertion-ordered dictionary (C7) -/

theorem dictGet_dictSet_self {α : Type} (d : List (String × α)) (k : String) (v : α) :
    dictGet (dictSet d k v) k = some v := by
  induction d with
  | nil => simp [dictSet, dictGet]
  | cons e rest ih =>
    by_cases h : e.1 = k
    · simp [dictSet, dictGet, h]
    · simp [dictSet, dictGet, h, ih]

theorem dictGet_dictSet_ne {α : Type} (d : List (String × α)) (k k' : String) (v : α)
    (h : k' ≠ k) : dictGet (dictSet d k v) k' = dictGet d k' := by
  have hne : k ≠ k' := fun he => h he.symm
  induction d with
  | nil => simp [dictSet, dictGet, hne]
  | cons e rest ih =>
    by_cases he : e.1 = k
    · simp [dictSet, dictGet, he, hne]
    · simp only [dictSet, beq_iff_eq, he, if_false]
      by_cases he' : e.1 = k'
      · simp [dictGet, he']
      · simp [dictGet, he', ih]

theorem mem_of_dictGet {α : Type} (d : List (String × α)) (k : String) (v : α)
    (h : dictGet d k = some v) : (k, v) ∈ d := by
  induction d with
  | nil => simp [dictGet] at h
  | cons e rest ih =>
    obtain ⟨e1, e2⟩ := e
    by_cases he : e1 = k
    · simp only [dictGet, beq_iff_eq, he, if_true, Option.some.injEq] at h
      rw [← he, ← h]
      exact List.mem_cons_self _ _
    · simp only [dictGet, beq_iff_eq, he, if_false] at h
      exact List.mem_cons_of_mem _ (ih h)

theorem mem_keys_dictSet {α : Type} (d : List (String × α)) (k : String) (v : α)
    (a : String) :
    a ∈ (dictSet d k v).map Prod.fst ↔ a ∈ d.map Prod.fst ∨ a = k := by
  induction d with
  | nil => simp [dictSet]
  | cons e rest ih =>
    by_cases he : e.1 = k
    · simp only [dictSet, beq_iff_eq, he, if_true, List.map_cons, List.mem_cons, ih, he]
      tauto
    · simp only [dictSet, beq_iff_eq, he, if_false, List.map_cons, List.mem_cons, ih]
      tauto

theorem nodup_keys_dictSet {α : Type} (d : List (String × α)) (k : String) (v : α)
    (h : (d.map Prod.fst).Nodup) : ((dictSet d k v).map Prod.fst).Nodup := by
  induction d with
  | nil => simp [dictSet]
  | cons e rest ih =>
    rw [List.map_cons, List.nodup_cons] at h
    by_cases he : e.1 = k
    · simp only [dictSet, beq_iff_eq, he, if_true, List.map_cons, List.nodup_cons]
      exact ⟨he ▸ h.1, h.2⟩
    · simp only [dictSet, beq_iff_eq, he, if_false, List.map_cons, List.nodup_cons,
        mem_keys_dictSet]
      exact ⟨by tauto, ih h.2⟩

/-! ## Lemmas about the identity parser (C7) -/

theorem spanP_cons_pos (p : Char → Bool) (c : Char) (rest : List Char)
    (h : p c = true) :
    spanP p (c :: rest) = (c :: (spanP p rest).1, (spanP p rest).2) := by
  cases hsp : spanP p rest with
  | mk a b => simp [spanP, h, hsp]

theorem spanP_fst_sat (p : Char → Bool) :
    ∀ l : List Char, ∀ x ∈ (spanP p l).1, p x = true := by
  intro l
  induction l with
  | nil => simp [spanP]
  | cons c rest ih =>
    cases hp : p c with
    | false => simp [spanP, hp]
    | true =>
      rw [spanP_cons_pos p c rest hp]
      intro x hx
      rcases List.mem_cons.mp hx with h | h
      · rw [h]; exact hp
      · exact ih x h

theorem span1_sat (p : Char → Bool) (l xs rest : List Char)
    (h : span1 p l = some (xs, rest)) : ∀ x ∈ xs, p x = true := by
  have hfst : xs = (spanP p l).1 := by
    unfold span1 at h
    cases hsp : spanP p l with
    | mk a b =>
      rw [hsp] at h
      cases a with
      | nil => simp at h
      | cons a0 as =>
        simp only [Option.some.injEq, Prod.mk.injEq] at h
        rw [h.1]

  intro x hx
  exact spanP_fst_sat p l x (hfst ▸ hx)

theorem expectChr_some (c : Char) (l rest : List Char)
    (h : expectChr c l = some rest) : l = c :: rest := by
  cases l with
  | nil => simp [expectChr] at h
  | cons x xs =>
    by_cases hx : x = c
    · simp only [expectChr, hx, if_true, Option.some.injEq] at h
      rw [hx, h]
    · simp [expectChr, hx] at h

/-- The identity captured by a successful match never contains a dot:
its characters are `D`, `R`, dashes, capitals `A`–`Z` and digits. -/
theorem matchIdRev_no_dot (g : String) (b r : String)
    (h : matchIdRev g = some (b, r)) : '.' ∉ b.data := by
  unfold matchIdRev at h
  rcases h1 : expectChr 'D' g.data with _ | r1 <;> rw [h1] at h
  · simp at h
  dsimp only at h
  rcases h2 : expectChr 'R' r1 with _ | r2 <;> rw [h2] at h
  · simp at h
  dsimp only at h
  rcases h3 : expectChr '-' r2 with _ | r3 <;> rw [h3] at h
  · simp at h
  dsimp only at h
  rcases h4 : span1 isUpperAZ r3 with _ | ⟨letters, r4⟩ <;> rw [h4] at h
  · simp at h
  dsimp only at h
  rcases h5 : expectChr '-' r4 with _ | r5 <;> rw [h5] at h
  · simp at h
  dsimp only at h
  rcases h6 : span1 isDigit09 r5 with _ | ⟨digs, r6⟩ <;> rw [h6] at h
  · simp at h
  dsimp only at h
  rcases h7 : expectChr '-' r6 with _ | r7 <;> rw [h7] at h
  · simp at h
  dsimp only at h
  rcases r7 with _ | ⟨c, r8⟩
  · simp at h
  dsimp only at h
  by_cases hc : (c = 'C' || c = 'P' || c = 'D') = true
  swap
  · rw [if_neg hc] at h
    simp at h
  rw [if_pos hc] at h
  rcases h9 : span1 isDigit09 r8 with _ | ⟨digs2, r9⟩ <;> rw [h9] at h
  · simp at h
  dsimp only at h
  rcases h10 : expectChr '.' r9 with _ | r10 <;> rw [h10] at h
  · simp at h
  dsimp only at h
  simp only [Option.some.injEq, Prod.mk.injEq] at h
  obtain ⟨hb, _hr⟩ := h
  rw [← hb]
  intro hdot
  have hdot' : '.' ∈ ('D' :: 'R' :: '-' :: (letters ++ '-' :: digs)) := hdot
  simp only [List.mem_cons] at hdot'
  rcases hdot' with h | h | h | hrest
  · exact absurd h (by decide)
  · exact absurd h (by decide)
  · exact absurd h (by decide)
  · rcases List.mem_append.mp hrest with h | h
    · exact absurd (span1_sat isUpperAZ r3 letters r4 h4 '.' h) (by decide)
    · rcases List.mem_cons.mp h with h | h
      · exact absurd h (by decide)
      · exact absurd (span1_sat isDigit09 r5 digs r6 h6 '.' h) (by decide)

theorem char_toNat_ofNat (n : Nat) (h : n.isValidChar) :
    (Char.ofNat n).toNat = n := by
  rw [Char.ofNat, dif_pos h]
  rfl

/-- A character whose ASCII lowering is `.` is `.` itself. -/
theorem pyLowerChar_eq_dot (c : Char) (h : pyLowerChar c = '.') : c = '.' := by
  simp only [pyLowerChar, Char.toLower] at h
  split_ifs at h with hc
  · exfalso
    have hv : (c.toNat + 32).isValidChar := Or.inl (by omega)
    have htn := congrArg Char.toNat h
    rw [char_toNat_ofNat _ hv] at htn
    have h46 : ('.' : Char).toNat = 46 := by decide
    omega
  · exact h

/-- A filename with a recognized extension contains a dot. -/
theorem dot_of_recognizedExt (f : String) (h : recognizedExt f = true) :
    '.' ∈ f.data := by
  have hlow : '.' ∈ f.data.map pyLowerChar := by
    unfold recognizedExt at h
    simp only [Bool.or_eq_true] at h
    rcases h with (h | h) | h <;>
    · rcases List.isSuffixOf_iff_suffix.mp h with ⟨t, ht⟩
      rw [← ht]
      simp
  obtain ⟨c, hc, hlc⟩ := List.mem_map.mp hlow
  rw [← pyLowerChar_eq_dot c hlc]
  exact hc

/-! ## Lemmas about the resolver loop body (C7) -/

/-- Each loop iteration either leaves the dictionary unchanged or assigns
under the key `keyOf g`; the assigned filename is always `g` itself, and
the stored revision is `"NA"` exactly when the name is unparseable. -/
theorem revStep_cases (d : List (String × String × String)) (g : String) :
    revStep d g = d ∨
    (∃ b rev, matchIdRev g = some (b, rev) ∧ keyOf g = b ∧
      revStep d g = dictSet d b (g, rev)) ∨
    (matchIdRev g = none ∧ keyOf g = g ∧
      revStep d g = dictSet d g (g, "NA")) := by
  unfold revStep
  by_cases hx : recognizedExt g = true
  · rw [hx]
    simp only [Bool.not_true, Bool.false_eq_true, if_false]
    cases hm : matchIdRev g with
    | none =>
      dsimp only
      exact Or.inr (Or.inr ⟨rfl, by simp [keyOf, hm], rfl⟩)
    | some p =>
      obtain ⟨b, rev⟩ := p
      dsimp only
      cases hg : dictGet d b with
      | none =>
        dsimp only
        exact Or.inr (Or.inl ⟨b, rev, rfl, by simp [keyOf, hm], rfl⟩)
      | some current =>
        dsimp only
        by_cases hcmp : pyStrGt (rev.data.drop 1) (current.2.data.drop 1) = true
        · rw [if_pos hcmp]
          exact Or.inr (Or.inl ⟨b, rev, rfl, by simp [keyOf, hm], rfl⟩)
        · rw [if_neg hcmp]
          exact Or.inl rfl
  · rw [Bool.not_eq_true] at hx
    rw [hx]
    simp

/-- A key equal to a dotted filename can only have come from that
filename itself (matched identities never contain a dot). -/
theorem keyOf_eq_self (f g : String) (hdot : '.' ∈ f.data) (h : keyOf g = f) :
    g = f := by
  cases hm : matchIdRev g with
  | none =>
    rw [keyOf, hm] at h
    exact h
  | some p =>
    obtain ⟨b, rev⟩ := p
    rw [keyOf, hm] at h
    dsimp only at h
    rw [← h] at hdot
    exact absurd hdot (matchIdRev_no_dot g b rev hm)

/-- Once a dotted filename owns its fallback entry, no later iteration
disturbs it. -/
theorem revDict_preserve (f : String) (hdot : '.' ∈ f.data) :
    ∀ (fs : List String) (d : List (String × String × String)),
      dictGet d f = some (f, "NA") →
      dictGet (fs.foldl revStep d) f = some (f, "NA") := by
  intro fs
  induction fs with
  | nil => intro d hd; exact hd
  | cons g rest ih =>
    intro d hd
    rw [List.foldl_cons]
    apply ih
    rcases revStep_cases d g with h | ⟨b, rev, hm, _hk, h⟩ | ⟨_hm, _hk, h⟩
    · rw [h]; exact hd
    · rw [h]
      have hbf : b ≠ f := by
        intro hbf
        rw [← hbf] at hdot
        exact matchIdRev_no_dot g b rev hm hdot
      rw [dictGet_dictSet_ne _ _ _ _ (fun he => hbf he.symm)]
      exact hd
    · rw [h]
      by_cases hg : g = f
      · rw [hg, dictGet_dictSet_self]
      · rw [dictGet_dictSet_ne _ _ _ _ (fun he => hg he.symm)]
        exact hd

/-- The resolver dictionary keeps its keys distinct throughout the fold. -/
theorem nodup_keys_revDict_fold :
    ∀ (fs : List String) (d : List (String × String × String)),
      (d.map Prod.fst).Nodup → ((fs.foldl revStep d).map Prod.fst).Nodup := by
  intro fs
  induction fs with
  | nil => intro d hd; exact hd
  | cons g rest ih =>
    intro d hd
    rw [List.foldl_cons]
    apply ih
    rcases revStep_cases d g with h | ⟨b, rev, _hm, _hk, h⟩ | ⟨_hm, _hk, h⟩ <;>
      rw [h]
    · exact hd
    · exact nodup_keys_dictSet _ _ _ hd
    · exact nodup_keys_dictSet _ _ _ hd

/-- C7.  A recognized-extension file whose name fails the identity
pattern becomes its own singleton identity group, keyed by its raw
filename: its dictionary entry is exactly `(filename, (filename, "NA"))`,
it is selected into the work list (never silently dropped), the
dictionary holds exactly one entry per distinct identity (keys are
distinct), and no other file can land in its group (any file whose key
equals this filename is this file). -/
theorem C7_unparseable_file_is_own_singleton_group
    (files : List String) (f : String)
    (hext : recognizedExt f = true) (hun : matchIdRev f = none)
    (hmem : f ∈ files) :
    dictGet (revDict files) f = some (f, "NA") ∧
    f ∈ get_latest_revisions files ∧
    ((revDict files).map Prod.fst).Nodup ∧
    (∀ g : String, keyOf g = f → g = f) := by
  have hdot : '.' ∈ f.data := dot_of_recognizedExt f hext
  have hget : dictGet (revDict files) f = some (f, "NA") := by
    obtain ⟨s, t, rfl⟩ := List.append_of_mem hmem
    rw [revDict, List.foldl_append, List.foldl_cons]
    apply revDict_preserve f hdot
    have hstep : revStep (s.foldl revStep []) f
        = dictSet (s.foldl revStep []) f (f, "NA") := by
      unfold revStep
      rw [hext]
      simp only [Bool.not_true, Bool.false_eq_true, if_false, hun]
    rw [hstep, dictGet_dictSet_self]
  refine ⟨hget, ?_, ?_, fun g => keyOf_eq_self f g hdot⟩
  · have hm := mem_of_dictGet _ _ _ hget
    rw [get_latest_revisions]
    exact List.mem_map.mpr ⟨(f, (f, "NA")), hm, rfl⟩
  · exact nodup_keys_revDict_fold files [] (by simp)

/-- Witness for C7: in a session holding `notes.pdf` and a well-formed
drawing file, `notes.pdf` forms its own group and is selected. -/
theorem C7_unparseable_file_witness :
    dictGet (revDict ["notes.pdf", "DR-AB-100-C1.pdf"]) "notes.pdf"
      = some ("notes.pdf", "NA") ∧
    "notes.pdf" ∈ get_latest_revisions ["notes.pdf", "DR-AB-100-C1.pdf"] :=
  have h := C7_unparseable_file_is_own_singleton_group
    ["notes.pdf", "DR-AB-100-C1.pdf"] "notes.pdf"
    (by decide) (by decide) (by decide)
  ⟨h.1, h.2.1⟩

end DrawingChecker
